import Mathlib

/-!
Shallow embedding of the Account Lifecycle Manager of this repository
(`src/app/services/user_service.py`, class `UserService`).

The persistence store is modelled as a `List User`; `session.add` followed by
`commit` on a fetched record is modelled by `updateUser` (replace the record
with the matching id).  The collaborators that the spec declares external —
credential hasher/verifier, token and nickname generators, the input
validator — are passed in as opaque function parameters.  Timestamps are
integers (seconds); `datetime.now(timezone.utc)` is passed in as `now`.

One point requires care: line 172 of `user_service.py` evaluates
`timedelta(hours=24)`, but the module imports only `datetime` and `timezone`
from `datetime` (line 2); `timedelta` is an unbound name, so every execution
that reaches the `is_locked` branch raises `NameError` before the comparison
completes.  The embedding makes this explicit with `Except` and `PyError`:
lines 173–182 of the source are unreachable at runtime.
-/

namespace UserService

/-- Modelled from the spec: the `UserRole` enum lives in
`app/models/user_model.py`, which is not part of the sources here; §3 of the
spec lists the roles as ADMIN, AUTHENTICATED, ANONYMOUS. -/
inductive UserRole where
  | ADMIN
  | AUTHENTICATED
  | ANONYMOUS
deriving DecidableEq, Repr

/-- Modelled from the spec: the `User` model (`app/models/user_model.py`) is
not among the sources; its fields and their semantic types are taken from §3
of the spec (the attribute list of **Account**).  Profile free-form fields
are irrelevant to the claims and omitted. -/
structure User where
  id : Nat
  email : String
  nickname : String
  hashed_password : String
  role : UserRole
  email_verified : Bool
  verification_token : Option String
  is_locked : Bool
  failed_login_attempts : Nat
  last_login_at : Option Int
  created_at : Int
  is_professional : Bool
  professional_status_updated_at : Option Int
deriving DecidableEq, Repr

/-- Python runtime errors that the source can raise.  `nameError s` models
`NameError: name 's' is not defined`. -/
inductive PyError where
  | nameError (name : String)
deriving DecidableEq, Repr

/-- `_fetch_user(session, email=email)` / `get_by_email` (lines 48–50):
first record whose email matches. -/
def get_by_email (store : List User) (email : String) : Option User :=
  store.find? (fun u => u.email == email)

/-- `get_by_nickname` (lines 44–46). -/
def get_by_nickname (store : List User) (nickname : String) : Option User :=
  store.find? (fun u => u.nickname == nickname)

/-- `get_by_id` (lines 40–42). -/
def get_by_id (store : List User) (uid : Nat) : Option User :=
  store.find? (fun u => u.id == uid)

/-- `session.add(user); await session.commit()` on a record fetched from the
store: the record with the same id is replaced by the mutated one. -/
def updateUser (store : List User) (u : User) : List User :=
  store.map (fun v => if v.id == u.id then u else v)

/-- `count` (lines 240–251): number of users in the store. -/
def count (store : List User) : Nat :=
  store.length

/-- `login_user` (lines 151–207).  Parameters: `verify` is
`verify_password(password, hashed)` from `app.utils.security`;
`maxAttempts` is `settings.max_login_attempts`; `now` is
`datetime.now(timezone.utc)`.  Returns the committed store and the value the
Python function returns (`Optional[User]`), or the runtime error.

Branches, in source order:
* email not found (154–157): return `None`, no store access beyond the read;
* `email_verified is False` (160–162): return `None` — note no
  `session.add`/`commit` and no `last_login_at` update on this branch;
* `is_locked` (165): the condition on line 172 evaluates
  `timedelta(hours=24)`, an unbound name, so this branch raises `NameError`;
  the auto-unlock (173–175) and locked-persist (176–182) code is unreachable;
* password verifies (185–192): reset counter, stamp `last_login_at`, commit,
  return the user;
* wrong password (193–207): increment counter, stamp `last_login_at`, lock
  when the counter reaches `maxAttempts`, commit, return `None`. -/
def login_user (verify : String → String → Bool) (maxAttempts : Nat) (now : Int)
    (store : List User) (email password : String) :
    Except PyError (List User × Option User) :=
  match get_by_email store email with
  | none => Except.ok (store, none)
  | some user =>
    if user.email_verified = false then
      Except.ok (store, none)
    else if user.is_locked then
      Except.error (PyError.nameError "timedelta")
    else if verify password user.hashed_password then
      let u := { user with failed_login_attempts := 0, last_login_at := some now }
      Except.ok (updateUser store u, some u)
    else
      let attempts := user.failed_login_attempts + 1
      let u := { user with
        failed_login_attempts := attempts,
        last_login_at := some now,
        is_locked := if maxAttempts ≤ attempts then true else user.is_locked }
      Except.ok (updateUser store u, none)

/-- `is_account_locked` (lines 209–212): `user.is_locked if user else False`. -/
def is_account_locked (store : List User) (email : String) : Bool :=
  match get_by_email store email with
  | some user => user.is_locked
  | none => false

/-- `reset_password` (lines 215–226).  `hash` is `hash_password`. -/
def reset_password (hash : String → String) (store : List User) (uid : Nat)
    (new_password : String) : List User × Bool :=
  let hashed := hash new_password
  match get_by_id store uid with
  | some user =>
    let u := { user with
      hashed_password := hashed, failed_login_attempts := 0, is_locked := false }
    (updateUser store u, true)
  | none => (store, false)

/-- `verify_email_with_token` (lines 228–238).  The Python parameter is typed
`str` but nothing prevents `None`, and the stored `verification_token` column
is nullable, so both sides are `Option String`; the guard is
`user and user.verification_token == token`. -/
def verify_email_with_token (store : List User) (uid : Nat)
    (token : Option String) : List User × Bool :=
  match get_by_id store uid with
  | some user =>
    if user.verification_token = token then
      let u := { user with
        email_verified := true, verification_token := none,
        role := UserRole.AUTHENTICATED }
      (updateUser store u, true)
    else (store, false)
  | none => (store, false)

/-- `unlock_user_account` (lines 253–262). -/
def unlock_user_account (store : List User) (uid : Nat) : List User × Bool :=
  match get_by_id store uid with
  | some user =>
    if user.is_locked then
      let u := { user with is_locked := false, failed_login_attempts := 0 }
      (updateUser store u, true)
    else (store, false)
  | none => (store, false)

/-- `update_professional_status` (lines 264–287). -/
def update_professional_status (store : List User) (uid : Nat)
    (is_professional : Bool) (now : Int) : List User × Option User :=
  match get_by_id store uid with
  | some user =>
    let u := { user with
      is_professional := is_professional,
      professional_status_updated_at := some now }
    (updateUser store u, some u)
  | none => (store, none)

/-- The validated field map that `UserCreate(**user_data).model_dump()`
produces for the fields the claims need (validation itself is the external
Validator collaborator). -/
structure UserCreate where
  email : String
  password : String
deriving DecidableEq, Repr

/-- Outcome of `create`: `ok store user emailsSent` is a committed creation
(`emailsSent` counts `send_verification_email` invocations), `failure` is the
`None` return (validation rejection or duplicate email), and `diverged`
records that the nickname `while` loop (lines 63–64) was still running when
the modelling fuel ran out — the source loop has no bound of its own. -/
inductive CreateResult where
  | ok (store : List User) (user : User) (emailsSent : Nat)
  | failure
  | diverged
deriving DecidableEq, Repr

/-- The nickname retry loop of `create` (lines 62–65):
`new_nickname = generate_nickname()` then
`while await cls.get_by_nickname(session, new_nickname): regenerate`.
`genNick k` is the result of the (k+1)-th call to `generate_nickname()`;
`fuel` bounds the modelled iterations only — the source has no bound, so
`none` means the loop was still running after `fuel` iterations. -/
def pickNickname (genNick : Nat → String) (store : List User) :
    Nat → Nat → Option String
  | 0, _ => none
  | fuel + 1, k =>
    let n := genNick k
    if (get_by_nickname store n).isSome then pickNickname genNick store fuel (k + 1)
    else some n

/-- `create` (lines 52–81).  `validate` is the external Validator
(`UserCreate(**user_data)`: `none` models `ValidationError`, caught at line
79, returning `None`); `hash` is `hash_password`, `genNick` the nickname
generator stream, `genToken` the value of `generate_verification_token()`.
`newId` and `now` stand for the id and `created_at` the store/model assign at
commit; the remaining `User` fields start at the model defaults — modelled
from the spec (§3), since `app/models/user_model.py` is not among the
sources: unverified, no token, unlocked, zero failed attempts.  Source
order: validate; duplicate-email check; hash; nickname loop; `count`; role
assignment (`ADMIN` iff `user_count == 0`, else `ANONYMOUS`); the admin gets
`email_verified = True` and no email, anyone else gets a verification token
and one `send_verification_email` call; commit. -/
def create (validate : UserCreate → Option UserCreate) (hash : String → String)
    (genNick : Nat → String) (genToken : String) (newId : Nat) (now : Int)
    (fuel : Nat) (store : List User) (user_data : UserCreate) : CreateResult :=
  match validate user_data with
  | none => CreateResult.failure
  | some validated =>
    if (get_by_email store validated.email).isSome then CreateResult.failure
    else
      let hashed := hash validated.password
      match pickNickname genNick store fuel 0 with
      | none => CreateResult.diverged
      | some nickname =>
        let user_count := count store
        let role := if user_count == 0 then UserRole.ADMIN else UserRole.ANONYMOUS
        let base : User := {
          id := newId, email := validated.email, nickname := nickname,
          hashed_password := hashed, role := role,
          email_verified := false, verification_token := none,
          is_locked := false, failed_login_attempts := 0,
          last_login_at := none, created_at := now,
          is_professional := false, professional_status_updated_at := none }
        if role = UserRole.ADMIN then
          let u := { base with email_verified := true }
          CreateResult.ok (store ++ [u]) u 0
        else
          let u := { base with verification_token := some genToken }
          CreateResult.ok (store ++ [u]) u 1

/-- Store committed by one `login_user` call, the input store when the call
raised (Python leaves the record untouched when the exception fires before
any `commit`).  Harness for chaining login attempts in concrete runs. -/
def storeAfterLogin (verify : String → String → Bool) (maxAttempts : Nat)
    (now : Int) (store : List User) (email password : String) : List User :=
  match login_user verify maxAttempts now store email password with
  | Except.ok (s, _) => s
  | Except.error _ => store

/-- Password check used in the concrete runs: the stored hash is the
plaintext itself (the hasher is opaque to the service, so any function
serves). -/
def demoVerify : String → String → Bool := fun p h => p == h

/-- Verified account locked since timestamp 0. -/
def lockedUser1 : User :=
  { id := 1, email := "locked@example.com", nickname := "nick1",
    hashed_password := "secret", role := UserRole.AUTHENTICATED,
    email_verified := true, verification_token := none, is_locked := true,
    failed_login_attempts := 5, last_login_at := some 0, created_at := 0,
    is_professional := false, professional_status_updated_at := none }

/-- C1: the claim says a locked account whose last attempt is more than 24
hours old is auto-unlocked by the next `login_user` call, which then checks
the credentials.  The code cannot do this: evaluating the guard on line 172
(`current_time - last_attempt > timedelta(hours=24)`) raises `NameError`
because `timedelta` is never imported (line 2 imports only `datetime` and
`timezone`).  Here: lock stamped at time 0, login at 30 hours with the
correct password — the call raises instead of unlocking and succeeding. -/
theorem login_autoUnlock_raises_nameError :
    login_user demoVerify 5 (30 * 3600) [lockedUser1] "locked@example.com"
      "secret" = Except.error (PyError.nameError "timedelta") := by
  rfl

/-- Fresh verified, unlocked account for the lockout run. -/
def freshUser2 : User :=
  { id := 2, email := "u2@example.com", nickname := "nick2",
    hashed_password := "secret", role := UserRole.AUTHENTICATED,
    email_verified := true, verification_token := none, is_locked := false,
    failed_login_attempts := 0, last_login_at := none, created_at := 0,
    is_professional := false, professional_status_updated_at := none }

/-- Store after one wrong-password attempt (max_login_attempts = 3). -/
def lockoutStore1 : List User :=
  storeAfterLogin demoVerify 3 1 [freshUser2] "u2@example.com" "wrong"

/-- Store after two wrong-password attempts. -/
def lockoutStore2 : List User :=
  storeAfterLogin demoVerify 3 2 lockoutStore1 "u2@example.com" "wrong"

/-- Store after three wrong-password attempts. -/
def lockoutStore3 : List User :=
  storeAfterLogin demoVerify 3 3 lockoutStore2 "u2@example.com" "wrong"

/-- C2: with `max_login_attempts = 3`, three consecutive wrong-password
logins leave the account with `is_locked = true` (this half matches the
claim), but the fourth attempt — with the CORRECT password — does not fail
with the account-locked outcome as the claim states: it raises `NameError`,
because the locked branch of `login_user` evaluates the unimported name
`timedelta` (line 172) before it can return. -/
theorem lockout_after_max_attempts_then_raises :
    (get_by_email lockoutStore3 "u2@example.com").map User.is_locked =
      some true ∧
    login_user demoVerify 3 4 lockoutStore3 "u2@example.com" "secret" =
      Except.error (PyError.nameError "timedelta") := by
  exact ⟨rfl, rfl⟩

/-- Verified account locked since timestamp 90. -/
def lockedUser5 : User :=
  { id := 5, email := "e5@example.com", nickname := "nick5",
    hashed_password := "secret", role := UserRole.AUTHENTICATED,
    email_verified := true, verification_token := none, is_locked := true,
    failed_login_attempts := 3, last_login_at := some 90, created_at := 0,
    is_professional := false, professional_status_updated_at := none }

/-- C5: the claim says no public operation terminates with an uncaught
exception, but `login_user` on any locked account raises `NameError`
(unbound `timedelta`, line 172) — an uncaught exception escaping the
operation boundary. -/
theorem login_user_uncaught_exception :
    login_user demoVerify 5 100 [lockedUser5] "e5@example.com" "secret" =
      Except.error (PyError.nameError "timedelta") := by
  rfl

/-- C10: `is_account_locked` returns `false` both when no account carries the
email and when the account exists and is unlocked, so the two cases are
indistinguishable at this interface. -/
theorem is_account_locked_not_found_false (store store2 : List User)
    (email email2 : String) (u : User) :
    (get_by_email store email = none → is_account_locked store email = false) ∧
    (get_by_email store2 email2 = some u → u.is_locked = false →
      is_account_locked store2 email2 = false) := by
  constructor
  · intro h
    simp [is_account_locked, h]
  · intro h hu
    simp [is_account_locked, h, hu]

/-- Existing unlocked account for the C10 witness. -/
def unlockedUser10 : User :=
  { id := 10, email := "u10@example.com", nickname := "nick10",
    hashed_password := "secret", role := UserRole.AUTHENTICATED,
    email_verified := true, verification_token := none, is_locked := false,
    failed_login_attempts := 0, last_login_at := none, created_at := 0,
    is_professional := false, professional_status_updated_at := none }

/-- Witness for C10: an absent email and an existing unlocked account both
report `false`. -/
theorem is_account_locked_not_found_false_witness :
    is_account_locked [] "ghost@example.com" = false ∧
    is_account_locked [unlockedUser10] "u10@example.com" = false :=
  ⟨(is_account_locked_not_found_false [] [unlockedUser10] "ghost@example.com"
      "u10@example.com" unlockedUser10).1 rfl,
   (is_account_locked_not_found_false [] [unlockedUser10] "ghost@example.com"
      "u10@example.com" unlockedUser10).2 rfl rfl⟩

/-- C7: `reset_password` on an existing account commits the record with the
new hash, a zero failed-attempt counter and the lock cleared, returning
success; on a missing id it returns failure with the store untouched. -/
theorem reset_password_contract (hash : String → String) (store : List User)
    (uid : Nat) (new_password : String) :
    (∀ u, get_by_id store uid = some u →
      reset_password hash store uid new_password =
        (updateUser store { u with hashed_password := hash new_password, failed_login_attempts := 0, is_locked := false }, true)) ∧
    (get_by_id store uid = none →
      reset_password hash store uid new_password = (store, false)) := by
  constructor
  · intro u h
    simp [reset_password, h]
  · intro h
    simp [reset_password, h]

/-- Locked account with stale hash for the C7 witness. -/
def lockedUser7 : User :=
  { id := 7, email := "u7@example.com", nickname := "nick7",
    hashed_password := "oldhash", role := UserRole.AUTHENTICATED,
    email_verified := true, verification_token := none, is_locked := true,
    failed_login_attempts := 4, last_login_at := some 3, created_at := 0,
    is_professional := false, professional_status_updated_at := none }

/-- Witness for C7: resetting a locked account's password (identity hasher)
replaces the hash, zeroes the counter and unlocks; a missing id fails. -/
theorem reset_password_contract_witness :
    reset_password id [lockedUser7] 7 "newpw" =
      (updateUser [lockedUser7] { lockedUser7 with hashed_password := "newpw", failed_login_attempts := 0, is_locked := false }, true) ∧
    reset_password id [lockedUser7] 8 "newpw" = ([lockedUser7], false) :=
  ⟨(reset_password_contract id [lockedUser7] 7 "newpw").1 lockedUser7 rfl,
   (reset_password_contract id [lockedUser7] 8 "newpw").2 rfl⟩

/-- Unverified account for the C3 run: note `last_login_at = none`. -/
def unverifiedUser3 : User :=
  { id := 3, email := "u3@example.com", nickname := "nick3",
    hashed_password := "secret", role := UserRole.ANONYMOUS,
    email_verified := false, verification_token := some "tok3",
    is_locked := false, failed_login_attempts := 0, last_login_at := none,
    created_at := 0, is_professional := false,
    professional_status_updated_at := none }

/-- C3 counterexample: the claim says every `login_user` branch on an
existing account — explicitly including the unverified-email branch —
persists the record with `last_login_at` updated.  But the unverified branch
(lines 160–162) returns `None` without touching the record: the committed
store is exactly the input store and `last_login_at` stays `None`. -/
theorem login_unverified_is_readonly :
    login_user demoVerify 3 77 [unverifiedUser3] "u3@example.com" "secret" =
      Except.ok ([unverifiedUser3], none) ∧
    unverifiedUser3.last_login_at = none := by
  exact ⟨rfl, rfl⟩

/-- C3 amended: on an existing account, `login_user` behaves by branch:
the unverified-email branch returns failure with the store unchanged (no
persist, no `last_login_at` update); the locked branch raises `NameError`
before reaching any commit; the verified-unlocked branches (success and
wrong password) commit the record with `last_login_at = now`. -/
theorem login_persistence_by_branch (verify : String → String → Bool)
    (maxAttempts : Nat) (now : Int) (store : List User)
    (email password : String) (u : User)
    (h : get_by_email store email = some u) :
    (u.email_verified = false →
      login_user verify maxAttempts now store email password =
        Except.ok (store, none)) ∧
    (u.email_verified = true → u.is_locked = true →
      login_user verify maxAttempts now store email password =
        Except.error (PyError.nameError "timedelta")) ∧
    (u.email_verified = true → u.is_locked = false →
      ∃ u2, u2.id = u.id ∧ u2.last_login_at = some now ∧
        login_user verify maxAttempts now store email password =
          Except.ok (updateUser store u2,
            if verify password u.hashed_password then some u2 else none)) := by
  refine ⟨?_, ?_, ?_⟩
  · intro hv
    simp [login_user, h, hv]
  · intro hv hl
    simp [login_user, h, hv, hl]
  · intro hv hl
    by_cases hp : verify password u.hashed_password
    · refine ⟨{ u with failed_login_attempts := 0, last_login_at := some now },
        rfl, rfl, ?_⟩
      simp [login_user, h, hv, hl, hp]
    · refine ⟨{ u with failed_login_attempts := u.failed_login_attempts + 1, last_login_at := some now, is_locked := if maxAttempts ≤ u.failed_login_attempts + 1 then true else u.is_locked },
        rfl, rfl, ?_⟩
      simp [login_user, h, hv, hl, hp]

/-- Locked verified account for the C3 witness. -/
def lockedUser3 : User :=
  { id := 31, email := "l3@example.com", nickname := "nick31",
    hashed_password := "secret", role := UserRole.AUTHENTICATED,
    email_verified := true, verification_token := none, is_locked := true,
    failed_login_attempts := 3, last_login_at := some 1, created_at := 0,
    is_professional := false, professional_status_updated_at := none }

/-- Verified unlocked account for the C3 witness. -/
def okUser3 : User :=
  { id := 33, email := "ok3@example.com", nickname := "nick33",
    hashed_password := "secret", role := UserRole.AUTHENTICATED,
    email_verified := true, verification_token := none, is_locked := false,
    failed_login_attempts := 1, last_login_at := some 2, created_at := 0,
    is_professional := false, professional_status_updated_at := none }

/-- Witness for the amended C3, exercising all three branches at concrete
inputs. -/
theorem login_persistence_by_branch_witness :
    login_user demoVerify 3 7 [unverifiedUser3] "u3@example.com" "secret" =
      Except.ok ([unverifiedUser3], none) ∧
    login_user demoVerify 3 7 [lockedUser3] "l3@example.com" "secret" =
      Except.error (PyError.nameError "timedelta") ∧
    (∃ u2, u2.id = okUser3.id ∧ u2.last_login_at = some 7 ∧
      login_user demoVerify 3 7 [okUser3] "ok3@example.com" "secret" =
        Except.ok (updateUser [okUser3] u2,
          if demoVerify "secret" okUser3.hashed_password then some u2 else none)) :=
  ⟨(login_persistence_by_branch demoVerify 3 7 [unverifiedUser3]
      "u3@example.com" "secret" unverifiedUser3 rfl).1 rfl,
   (login_persistence_by_branch demoVerify 3 7 [lockedUser3]
      "l3@example.com" "secret" lockedUser3 rfl).2.1 rfl rfl,
   (login_persistence_by_branch demoVerify 3 7 [okUser3]
      "ok3@example.com" "secret" okUser3 rfl).2.2 rfl rfl⟩

/-- Two pointwise-equal predicates find the same first element. -/
theorem find?_ext (p q : User → Bool) (h : ∀ x, p x = q x) (l : List User) :
    List.find? p l = List.find? q l := by
  induction l with
  | nil => rfl
  | cons a as ih => simp [List.find?_cons, h a, ih]

/-- Committing a mutated record and fetching the same id again yields the
mutated record: `get_by_id` after `updateUser` with a matching id. -/
theorem get_by_id_updateUser (store : List User) (uid : Nat) (v u : User)
    (hid : u.id = v.id) (h : get_by_id store uid = some v) :
    get_by_id (updateUser store u) uid = some u := by
  have hvid : v.id = uid := by
    have := List.find?_some h
    simpa using this
  have hcong : ∀ x : User,
      ((fun y : User => y.id == uid) ∘ fun y : User => if y.id == u.id then u else y) x =
        (fun y : User => y.id == uid) x := by
    intro x
    by_cases hx : x.id = u.id
    · simp [Function.comp, hx, hid, hvid]
    · simp [Function.comp, hx]
  have hmap : get_by_id (updateUser store u) uid =
      Option.map (fun y : User => if y.id == u.id then u else y)
        (get_by_id store uid) := by
    simp only [get_by_id, updateUser]
    rw [List.find?_map,
      find?_ext _ _ hcong]
  rw [hmap, h]
  simp [hid]

/-- C6: `verify_email_with_token` fails and commits nothing when the account
is missing or the stored token differs from the supplied one; and after a
successful verification clears the token, a second call with the formerly
correct token fails and leaves the store as the first call committed it. -/
theorem verify_email_failure_no_mutation (store : List User) (uid : Nat)
    (token : Option String) :
    ((get_by_id store uid = none ∨
        ∃ u, get_by_id store uid = some u ∧ u.verification_token ≠ token) →
      verify_email_with_token store uid token = (store, false)) ∧
    (∀ u t, get_by_id store uid = some u → u.verification_token = some t →
      (verify_email_with_token store uid (some t)).2 = true ∧
      verify_email_with_token (verify_email_with_token store uid (some t)).1
          uid (some t) =
        ((verify_email_with_token store uid (some t)).1, false)) := by
  constructor
  · rintro (h | ⟨u, h, hne⟩)
    · simp [verify_email_with_token, h]
    · simp [verify_email_with_token, h, hne]
  · intro u t h htok
    have hfst : verify_email_with_token store uid (some t) =
        (updateUser store { u with email_verified := true, verification_token := none, role := UserRole.AUTHENTICATED }, true) := by
      simp [verify_email_with_token, h, htok]
    refine ⟨by rw [hfst], ?_⟩
    have hget2 : get_by_id
        (updateUser store { u with email_verified := true, verification_token := none, role := UserRole.AUTHENTICATED }) uid =
        some { u with email_verified := true, verification_token := none, role := UserRole.AUTHENTICATED } :=
      get_by_id_updateUser store uid u _ rfl h
    rw [hfst]
    simp [verify_email_with_token, hget2]

/-- Unverified account holding token `tok6` for the C6 witness. -/
def tokenUser6 : User :=
  { id := 6, email := "u6@example.com", nickname := "nick6",
    hashed_password := "secret", role := UserRole.ANONYMOUS,
    email_verified := false, verification_token := some "tok6",
    is_locked := false, failed_login_attempts := 0, last_login_at := none,
    created_at := 0, is_professional := false,
    professional_status_updated_at := none }

/-- Witness for C6: a wrong token fails without mutation; the correct token
succeeds once and fails on the second use. -/
theorem verify_email_failure_no_mutation_witness :
    verify_email_with_token [tokenUser6] 6 (some "wrong") =
      ([tokenUser6], false) ∧
    ((verify_email_with_token [tokenUser6] 6 (some "tok6")).2 = true ∧
      verify_email_with_token
          (verify_email_with_token [tokenUser6] 6 (some "tok6")).1 6
          (some "tok6") =
        ((verify_email_with_token [tokenUser6] 6 (some "tok6")).1, false)) :=
  ⟨(verify_email_failure_no_mutation [tokenUser6] 6 (some "wrong")).1
      (Or.inr ⟨tokenUser6, rfl, by decide⟩),
   (verify_email_failure_no_mutation [tokenUser6] 6 (some "tok6")).2
      tokenUser6 "tok6" rfl rfl⟩

/-- C9: on an account whose `verification_token` is `None`, calling
`verify_email_with_token` with a `None` token satisfies the guard
`user.verification_token == token`, so the call succeeds and re-applies the
verification mutation — in particular `role` is overwritten with
`AUTHENTICATED`. -/
theorem verify_null_token_succeeds (store : List User) (uid : Nat) (u : User)
    (h : get_by_id store uid = some u) (htok : u.verification_token = none) :
    verify_email_with_token store uid none =
      (updateUser store { u with email_verified := true, verification_token := none, role := UserRole.AUTHENTICATED }, true) := by
  simp [verify_email_with_token, h, htok]

/-- First-account style ADMIN: verified, never had a token. -/
def adminUser9 : User :=
  { id := 9, email := "admin@example.com", nickname := "nick9",
    hashed_password := "secret", role := UserRole.ADMIN,
    email_verified := true, verification_token := none, is_locked := false,
    failed_login_attempts := 0, last_login_at := none, created_at := 0,
    is_professional := false, professional_status_updated_at := none }

/-- Witness for C9: the ADMIN account with no token is "verified" again by a
`None` token, and its role after the call is AUTHENTICATED — a demotion. -/
theorem verify_null_token_succeeds_witness :
    verify_email_with_token [adminUser9] 9 none =
      (updateUser [adminUser9] { adminUser9 with email_verified := true, verification_token := none, role := UserRole.AUTHENTICATED }, true) ∧
    (get_by_id (verify_email_with_token [adminUser9] 9 none).1 9).map
        User.role = some UserRole.AUTHENTICATED :=
  ⟨verify_null_token_succeeds [adminUser9] 9 adminUser9 rfl rfl, rfl⟩

/-- C4: whenever `create` commits a new account, the account created in an
empty store (count = 0 at creation) has role ADMIN, `email_verified = true`,
a null `verification_token`, and `send_verification_email` is not invoked;
an account created in a non-empty store starts unverified with the generated
token, and the Notifier is invoked exactly once. -/
theorem create_first_admin_rest_notified (validate : UserCreate → Option UserCreate)
    (hash : String → String) (genNick : Nat → String) (genToken : String)
    (newId : Nat) (now : Int) (fuel : Nat) (store : List User)
    (user_data : UserCreate) (storeOut : List User) (u : User)
    (emailsSent : Nat)
    (h : create validate hash genNick genToken newId now fuel store user_data =
      CreateResult.ok storeOut u emailsSent) :
    (count store = 0 → u.role = UserRole.ADMIN ∧ u.email_verified = true ∧
      u.verification_token = none ∧ emailsSent = 0) ∧
    (count store ≠ 0 → u.email_verified = false ∧
      u.verification_token = some genToken ∧ emailsSent = 1) := by
  unfold create at h
  cases hval : validate user_data with
  | none =>
    rw [hval] at h
    simp at h
  | some validated =>
    rw [hval] at h
    simp only [] at h
    by_cases hdup : (get_by_email store validated.email).isSome
    · rw [if_pos hdup] at h
      simp at h
    · rw [if_neg hdup] at h
      cases hnick : pickNickname genNick store fuel 0 with
      | none =>
        rw [hnick] at h
        simp at h
      | some nickname =>
        rw [hnick] at h
        by_cases hc : count store = 0
        · simp [hc] at h
          obtain ⟨hs, hu, he⟩ := h
          subst hu
          subst he
          constructor
          · intro _
            exact ⟨rfl, rfl, rfl, rfl⟩
          · intro hcon
            exact absurd hc hcon
        · have hcb : (count store == 0) = false := by simpa using hc
          simp [hcb] at h
          obtain ⟨hs, hu, he⟩ := h
          subst hu
          subst he
          constructor
          · intro hcon
            exact absurd hcon hc
          · intro _
            exact ⟨rfl, rfl, rfl⟩

/-- First account, as `create` commits it on an empty store. -/
def adminUser4 : User :=
  { id := 4, email := "u4@example.com", nickname := "nick4",
    hashed_password := "pw4", role := UserRole.ADMIN,
    email_verified := true, verification_token := none, is_locked := false,
    failed_login_attempts := 0, last_login_at := none, created_at := 0,
    is_professional := false, professional_status_updated_at := none }

/-- Second account, as `create` commits it when `adminUser4` already exists. -/
def anonUser44 : User :=
  { id := 44, email := "u44@example.com", nickname := "nick44",
    hashed_password := "pw44", role := UserRole.ANONYMOUS,
    email_verified := false, verification_token := some "tok44",
    is_locked := false, failed_login_attempts := 0, last_login_at := none,
    created_at := 0, is_professional := false,
    professional_status_updated_at := none }

/-- Witness for C4: a concrete creation in an empty store yields the
verified ADMIN with no token and no email, and the next creation yields an
unverified ANONYMOUS account with a token and one email sent. -/
theorem create_first_admin_rest_notified_witness :
    (adminUser4.role = UserRole.ADMIN ∧ adminUser4.email_verified = true ∧
      adminUser4.verification_token = none ∧ 0 = 0) ∧
    (anonUser44.email_verified = false ∧
      anonUser44.verification_token = some "tok44" ∧ 1 = 1) :=
  ⟨(create_first_admin_rest_notified (fun d => some d) id (fun _ => "nick4")
      "tok4" 4 0 1 [] ⟨"u4@example.com", "pw4"⟩ [adminUser4] adminUser4 0
      rfl).1 rfl,
   (create_first_admin_rest_notified (fun d => some d) id (fun _ => "nick44")
      "tok44" 44 0 1 [adminUser4] ⟨"u44@example.com", "pw44"⟩
      [adminUser4, anonUser44] anonUser44 1 rfl).2 (by decide)⟩

/-- Account already holding the nickname `taken`, for the C8 run. -/
def takenUser8 : User :=
  { id := 8, email := "u8@example.com", nickname := "taken",
    hashed_password := "secret", role := UserRole.ADMIN,
    email_verified := true, verification_token := none, is_locked := false,
    failed_login_attempts := 0, last_login_at := none, created_at := 0,
    is_professional := false, professional_status_updated_at := none }

/-- C8 counterexample: the claim says the nickname-collision retry loop is
capped at a finite bound and that `create` fails with an exhaustion error
when the bound runs out.  The source loop (lines 63–64) has no cap and no
exhaustion error: with a generator that always returns the already-taken
nickname, the loop is still running after 101 iterations — one past the
spec's own suggested cap of 100 attempts. -/
theorem create_nickname_loop_unbounded :
    create (fun d => some d) id (fun _ => "taken") "tok8" 80 0 101
      [takenUser8] ⟨"new8@example.com", "pw8"⟩ = CreateResult.diverged := by
  rfl

/-- C8 amended: the retry loop terminates only when the generator eventually
yields a nickname absent from the store; under perpetual collision it never
leaves the loop — for every iteration budget the loop is still running and
no exhaustion failure is produced. -/
theorem pickNickname_no_bound_under_collision (genNick : Nat → String)
    (store : List User)
    (h : ∀ k, (get_by_nickname store (genNick k)).isSome = true) :
    ∀ fuel k, pickNickname genNick store fuel k = none := by
  intro fuel
  induction fuel with
  | zero =>
    intro k
    rfl
  | succ n ih =>
    intro k
    simp [pickNickname, h k, ih (k + 1)]

/-- Witness for the amended C8: the constantly colliding generator leaves
the loop running for a concrete budget of 5 iterations. -/
theorem pickNickname_no_bound_under_collision_witness :
    pickNickname (fun _ => "taken") [takenUser8] 5 0 = none :=
  pickNickname_no_bound_under_collision (fun _ => "taken") [takenUser8]
    (fun _ => rfl) 5 0

end UserService
